import Mathlib

/-!
Verification of the Onkyo receiver integration (custom_components/onkyo)
against its natural-language specification.

The Python sources are shallowly embedded: pure arithmetic becomes functions
over ℚ/ℤ, the coordinator's poll cycle becomes a function from a reply oracle
to a snapshot plus the list of issued queries, and the connection manager
becomes an explicit state-transition function in which Python exceptions are
modelled by an error-absorbing handler, mirroring the try/except structure.
-/

namespace Onkyo

/-! ## Volume scaler (media_player.py, __init__.py, coordinator.py) -/

/-- Python's int() applied to a nonnegative-or-negative rational: truncation
toward zero, i.e. floor for nonnegative arguments and ceiling for negative. -/
def pyInt (q : ℚ) : ℤ :=
  if 0 ≤ q then ⌊q⌋ else ⌈q⌉

/-- media_player._ha_volume_to_receiver:
scaled_volume = ha_volume * (max_volume / 100) * resolution; return int(scaled_volume). -/
def ha_volume_to_receiver (ha_volume max_volume resolution : ℚ) : ℤ :=
  pyInt (ha_volume * (max_volume / 100) * resolution)

/-- __init__.calculate_volume:
scaled_volume = ha_volume * (max_volume / 100) * resolution; return int(scaled_volume). -/
def calculate_volume (ha_volume max_volume resolution : ℚ) : ℤ :=
  pyInt (ha_volume * (max_volume / 100) * resolution)

/-- media_player._receiver_volume_to_ha:
ha_volume = (receiver_volume / resolution) / (max_volume / 100);
return min(1.0, max(0.0, ha_volume)). -/
def receiver_volume_to_ha (receiver_volume max_volume resolution : ℚ) : ℚ :=
  min 1 (max 0 ((receiver_volume / resolution) / (max_volume / 100)))

/-- __init__.calculate_ha_volume:
return (receiver_volume / resolution) / (max_volume / 100)  (no clamping). -/
def calculate_ha_volume (receiver_volume max_volume resolution : ℚ) : ℚ :=
  (receiver_volume / resolution) / (max_volume / 100)

/-- coordinator.async_fetch_data, main zone volume site:
volume = volume_raw[1] / (self.receiver_max_volume * self.max_volume / 100).
Here receiver_max_volume plays the role of the resolution. -/
def coordinatorMainVolume (raw max_volume receiver_max_volume : ℚ) : ℚ :=
  raw / (receiver_max_volume * max_volume / 100)

/-- coordinator.async_fetch_data_zone, secondary zone volume site:
volume = volume_raw[1] / self.receiver_max_volume * (self.max_volume / 100). -/
def coordinatorZoneVolume (raw max_volume receiver_max_volume : ℚ) : ℚ :=
  raw / receiver_max_volume * (max_volume / 100)

/-- The specification's device-to-host formula, written from the spec's words:
toNormalized(deviceValue, maxPercent, resolution) = (deviceValue/resolution) /
(maxPercent/100), clamped to [0.0, 1.0]. -/
def toNormalizedSpec (deviceValue maxPercent resolution : ℚ) : ℚ :=
  min 1 (max 0 ((deviceValue / resolution) / (maxPercent / 100)))

theorem pyInt_eq_floor (q : ℚ) (h : 0 ≤ q) : pyInt q = ⌊q⌋ := by
  simp [pyInt, h]

/-- C1 counterexample: at deviceValue = 40, maxPercent = 50, resolution = 80 the
secondary-zone conversion site computes 1/4 while the claim's formula
(deviceValue/resolution)/(maxPercent/100) clamped to [0,1] gives 1, so the
device-to-host conversion does not match the claimed formula at every site. -/
theorem zone_volume_formula_cex :
    coordinatorZoneVolume 40 50 80 = 1 / 4 ∧
    toNormalizedSpec 40 50 80 = 1 ∧
    coordinatorZoneVolume 40 50 80 ≠ toNormalizedSpec 40 50 80 := by
  refine ⟨?_, ?_, ?_⟩ <;> norm_num [coordinatorZoneVolume, toNormalizedSpec]

/-- C1 (amended): the host-to-device conversion equals
floor(v * (maxPercent/100) * resolution) at both of its sites (for nonnegative
inputs); the device-to-host conversion equals
(deviceValue/resolution)/(maxPercent/100) clamped to [0,1] at the media_player
site, the same value unclamped at the calculate_ha_volume and main-zone
coordinator sites, and (deviceValue/resolution)*(maxPercent/100), unclamped, at
the secondary-zone coordinator site. -/
theorem volume_sites_amended (v maxv res d : ℚ) :
    (0 ≤ v → 0 ≤ maxv → 0 ≤ res →
      ha_volume_to_receiver v maxv res = ⌊v * (maxv / 100) * res⌋ ∧
      calculate_volume v maxv res = ⌊v * (maxv / 100) * res⌋) ∧
    receiver_volume_to_ha d maxv res = toNormalizedSpec d maxv res ∧
    calculate_ha_volume d maxv res = (d / res) / (maxv / 100) ∧
    coordinatorMainVolume d maxv res = (d / res) / (maxv / 100) ∧
    coordinatorZoneVolume d maxv res = (d / res) * (maxv / 100) := by
  refine ⟨fun hv hm hr => ?_, rfl, rfl, ?_, rfl⟩
  · have hq : 0 ≤ v * (maxv / 100) * res := by positivity
    exact ⟨pyInt_eq_floor _ hq, pyInt_eq_floor _ hq⟩
  · rw [coordinatorMainVolume, div_div, mul_div_assoc]

/-- C1 witness: the amended statement evaluated at v = 1/2, maxPercent = 50,
resolution = 80, deviceValue = 30. -/
theorem volume_sites_amended_witness :
    ha_volume_to_receiver (1 / 2) 50 80 = ⌊(1 / 2 : ℚ) * (50 / 100) * 80⌋ ∧
    coordinatorMainVolume 30 50 80 = ((30 : ℚ) / 80) / (50 / 100) := by
  have h := volume_sites_amended (1 / 2) 50 80 30
  exact ⟨(h.1 (by norm_num) (by norm_num) (by norm_num)).1, h.2.2.2.1⟩

/-- C2 counterexample: at v = 0.77, maxPercent = 50, resolution = 80 the
round trip through the code's conversion pair returns 3/4, at distance
1/50 from v, which exceeds 1/resolution = 1/80. -/
theorem volume_roundtrip_cex :
    ¬ |(77 / 100 : ℚ) -
        receiver_volume_to_ha
          ((ha_volume_to_receiver (77 / 100) 50 80 : ℤ) : ℚ) 50 80| ≤ 1 / 80 := by
  have h1 : ha_volume_to_receiver (77 / 100) 50 80 = 30 := by
    norm_num [ha_volume_to_receiver, pyInt]
  rw [h1]
  have h2 : receiver_volume_to_ha ((30 : ℤ) : ℚ) 50 80 = 3 / 4 := by
    norm_num [receiver_volume_to_ha]
  rw [h2]
  rw [show |(77 / 100 : ℚ) - 3 / 4| = 1 / 50 by
    rw [abs_of_nonneg (by norm_num)]; norm_num]
  norm_num

/-- C2 (amended): for every v in [0,1] and positive maxPercent and resolution,
the round trip through the code's conversion pair is within
100/(maxPercent * resolution) of v; the claimed bound 1/resolution holds when
maxPercent = 100 but fails at (0.77, 50, 80). -/
theorem volume_roundtrip_bound (v maxv res : ℚ)
    (h0 : 0 ≤ v) (h1 : v ≤ 1) (hm : 0 < maxv) (hr : 0 < res) :
    |v - receiver_volume_to_ha
        ((ha_volume_to_receiver v maxv res : ℤ) : ℚ) maxv res| ≤
      100 / (maxv * res) := by
  set k : ℚ := maxv / 100 * res with hk
  have hkpos : 0 < k := by positivity
  have hvk : v * (maxv / 100) * res = v * k := by rw [hk]; ring
  have hfl : ha_volume_to_receiver v maxv res = ⌊v * k⌋ := by
    rw [ha_volume_to_receiver, hvk, pyInt_eq_floor]
    positivity
  have hdk : ((⌊v * k⌋ : ℚ) / res) / (maxv / 100) = (⌊v * k⌋ : ℚ) / k := by
    rw [div_div, hk]; ring_nf
  have hfl_le : ((⌊v * k⌋ : ℚ)) ≤ v * k := Int.floor_le _
  have hfl_nonneg : (0 : ℚ) ≤ (⌊v * k⌋ : ℚ) := by
    have : (0 : ℤ) ≤ ⌊v * k⌋ := Int.floor_nonneg.mpr (by positivity)
    exact_mod_cast this
  have hle_v : (⌊v * k⌋ : ℚ) / k ≤ v := by
    rw [div_le_iff₀ hkpos]
    exact hfl_le
  have hge_0 : (0 : ℚ) ≤ (⌊v * k⌋ : ℚ) / k := by positivity
  have hclamp : receiver_volume_to_ha ((⌊v * k⌋ : ℚ)) maxv res = (⌊v * k⌋ : ℚ) / k := by
    rw [receiver_volume_to_ha, hdk, max_eq_right hge_0,
      min_eq_right (le_trans hle_v h1)]
  rw [hfl, hclamp]
  have hdist : v - (⌊v * k⌋ : ℚ) / k = (v * k - ⌊v * k⌋) / k := by
    field_simp
  have hnum_nonneg : 0 ≤ v * k - (⌊v * k⌋ : ℚ) := sub_nonneg.mpr hfl_le
  rw [hdist, abs_of_nonneg (div_nonneg hnum_nonneg hkpos.le)]
  have hlt : v * k - (⌊v * k⌋ : ℚ) ≤ 1 := by
    have := Int.lt_floor_add_one (v * k)
    linarith
  have h100 : 100 / (maxv * res) = 1 / k := by
    rw [hk]; field_simp
  rw [h100]
  gcongr

/-- C2 witness: the round-trip bound at v = 0.77, maxPercent = 50,
resolution = 80. -/
theorem volume_roundtrip_bound_witness :
    |(77 / 100 : ℚ) -
        receiver_volume_to_ha
          ((ha_volume_to_receiver (77 / 100) 50 80 : ℤ) : ℚ) 50 80| ≤
      100 / (50 * 80) :=
  volume_roundtrip_bound (77 / 100) 50 80 (by norm_num) (by norm_num)
    (by norm_num) (by norm_num)

/-! ## Wire replies and payload parsing (coordinator.py) -/

/-- The value part of an eiscp reply: a string, a tuple of strings, or a
number (volume replies). -/
inductive RVal where
  | s (v : String)
  | t (vs : List String)
  | n (q : ℚ)
deriving Repr, DecidableEq

/-- A reply from receiver.command: none models the falsy sentinel (False)
returned for unsupported queries; otherwise a (code, value) 2-tuple. -/
abbrev Reply := Option (String × RVal)

/-- Result of coordinator._parse_onkyo_payload: False (command not supported),
a list of strings (a string payload split on commas, or a tuple payload), or
a bare number. -/
inductive Parsed where
  | notSupported
  | listv (vs : List String)
  | numv (q : ℚ)
deriving Repr, DecidableEq

/-- coordinator._parse_onkyo_payload: a bool payload means not supported; a
string payload is split on commas; a tuple payload is returned as is. -/
def parse_onkyo_payload : Reply → Parsed
  | none => .notSupported
  | some (_, .s v) => .listv (v.splitOn ",")
  | some (_, .t vs) => .listv vs
  | some (_, .n q) => .numv q

/-- coordinator._tuple_get: (tup[index : index + 1] or [default])[0]. -/
def tuple_get {α : Type} (tup : List α) (index : Nat) (default : α) : α :=
  match (tup.drop index).take 1 with
  | [] => default
  | x :: _ => x

/-- The audio_information attribute built by _parse_audio_information. -/
structure AudioInformation where
  format : Option String
  input_frequency : Option String
  input_channels : Option String
  listening_mode : Option String
  output_channels : Option String
  output_frequency : Option String
deriving Repr, DecidableEq

/-- The video_information attribute built by _parse_video_information. -/
structure VideoInformation where
  input_resolution : Option String
  input_color_schema : Option String
  input_color_depth : Option String
  output_resolution : Option String
  output_color_schema : Option String
  output_color_depth : Option String
  picture_mode : Option String
deriving Repr, DecidableEq

/-- coordinator._parse_audio_information: returns the info dict when the
parsed payload is truthy, {} otherwise; slicing a numeric payload with
_tuple_get raises TypeError, modelled as an error. -/
def parse_audio_information (raw : Reply) : Except Unit (Option AudioInformation) :=
  match parse_onkyo_payload raw with
  | .notSupported => .ok none
  | .listv [] => .ok none
  | .listv vs =>
    let v := vs.map Option.some
    .ok (some
      { format := tuple_get v 1 none
        input_frequency := tuple_get v 2 none
        input_channels := tuple_get v 3 none
        listening_mode := tuple_get v 4 none
        output_channels := tuple_get v 5 none
        output_frequency := tuple_get v 6 none })
  | .numv q => if q = 0 then .ok none else .error ()

/-- coordinator._parse_video_information, analogous to the audio parser. -/
def parse_video_information (raw : Reply) : Except Unit (Option VideoInformation) :=
  match parse_onkyo_payload raw with
  | .notSupported => .ok none
  | .listv [] => .ok none
  | .listv vs =>
    let v := vs.map Option.some
    .ok (some
      { input_resolution := tuple_get v 1 none
        input_color_schema := tuple_get v 2 none
        input_color_depth := tuple_get v 3 none
        output_resolution := tuple_get v 5 none
        output_color_schema := tuple_get v 6 none
        output_color_depth := tuple_get v 7 none
        picture_mode := tuple_get v 8 none })
  | .numv q => if q = 0 then .ok none else .error ()

/-! ## Poll cycle (coordinator.async_fetch_data / async_fetch_data_zone) -/

/-- The attributes dictionary assembled during a poll cycle. -/
structure Attrs where
  preset : Option RVal
  audio_information : Option AudioInformation
  video_information : Option VideoInformation
  hdmi_output : Option String
deriving Repr, DecidableEq

def Attrs.empty : Attrs := ⟨none, none, none, none⟩

/-- The data dictionary returned by a poll cycle; a none field models an
absent key, and attributes is some exactly when the "attributes" key is set. -/
structure Snapshot where
  pwstate : Option String
  sound_mode : Option String
  current_source : Option String
  muted : Option Bool
  volume : Option ℚ
  hdmi_out_supported : Option Bool
  attributes : Option Attrs
deriving Repr, DecidableEq

def Snapshot.empty : Snapshot := ⟨none, none, none, none, none, none, none⟩

/-- Device replies to the queries issued by the main-zone poll cycle. -/
structure Oracle where
  power : Reply
  volume : Reply
  muting : Reply
  selector : Reply
  preset : Reply
  listening : Reply
  hdmi : Reply
  audioInfo : Reply
  videoInfo : Reply

/-- Device replies to the queries issued by a secondary-zone poll cycle. -/
structure ZoneOracle where
  power : Reply
  volume : Reply
  muting : Reply
  selector : Reply
  preset : Reply

/-- Coordinator configuration consulted by the poll cycle. -/
structure CoordConfig where
  hdmi_out_supported : Bool
  audio_info_supported : Bool
  video_info_supported : Bool
  sources : String → Option String
  receiver_max_volume : ℚ
  max_volume : ℚ

/-- The source-resolution loop shared by both poll cycles:
for source in sources: if source in self.sources: current_source =
self.sources[source]; break; current_source = "_".join(sources).
The first argument of the recursion is the full list being joined; none is
returned only for the empty list, where Python would raise NameError. -/
def resolveSource (lookup : String → Option String) (all : List String) :
    List String → Option String
  | [] => none
  | s :: rest =>
    match lookup s with
    | some label => some label
    | none =>
      match resolveSource lookup all rest with
      | some r => some r
      | none => some (String.intercalate "_" all)

/-- The sound-mode step of the main poll:
if listening_mode_raw: sound_mode = self._parse_onkyo_payload(...)[-1].
Indexing an empty list or a number with [-1] raises, modelled as an error. -/
def soundModeStep (listening : Reply) : Except Unit (Option String) :=
  match listening with
  | none => .ok none
  | some p =>
    match parse_onkyo_payload (some p) with
    | .listv vs =>
      match vs.getLast? with
      | some sm => .ok (some sm)
      | none => .error ()
    | .numv _ => .error ()
    | .notSupported => .error ()

/-- Python ",".join applied to a reply value: joining a string joins its
characters, joining a tuple joins its elements, joining a number raises. -/
def joinComma : RVal → Option String
  | .s v => some (String.intercalate "," (v.toList.map (fun c => String.singleton c)))
  | .t vs => some (String.intercalate "," vs)
  | .n _ => none

/-- coordinator.async_fetch_data, main zone: returns the list of queries
issued on the wire and either the snapshot dictionary or an error when the
Python code would raise. -/
def fetchData (cfg : CoordConfig) (o : Oracle) : List String × Except Unit Snapshot :=
  let log0 := ["system-power query"]
  match o.power with
  | none => (log0, .ok Snapshot.empty)
  | some (_, pv) =>
    if pv = RVal.s "on" then
      let log1 := log0 ++ ["volume query", "audio-muting query",
        "input-selector query", "preset query", "listening-mode query"]
      match soundModeStep o.listening with
      | .error _ => (log1, .error ())
      | .ok sound_mode =>
        let log2 := log1 ++
          (if cfg.hdmi_out_supported then ["hdmi-output-selector query"] else [])
        let hdmi_out_raw : Reply := if cfg.hdmi_out_supported then o.hdmi else none
        let log3 := log2 ++
          (if cfg.audio_info_supported then ["audio-information query"] else [])
        match (if cfg.audio_info_supported
            then parse_audio_information o.audioInfo else .ok none) with
        | .error _ => (log3, .error ())
        | .ok audioAttr =>
          let log4 := log3 ++
            (if cfg.video_info_supported then ["video-information query"] else [])
          match (if cfg.video_info_supported
              then parse_video_information o.videoInfo else .ok none) with
          | .error _ => (log4, .error ())
          | .ok videoAttr =>
            match o.volume, o.muting, o.selector with
            | some (_, vv), some (_, mv), some _ =>
              match parse_onkyo_payload o.selector with
              | .listv vs =>
                match resolveSource cfg.sources vs vs with
                | none => (log4, .error ())
                | some current_source =>
                  let presetAttr : Option RVal :=
                    match o.preset with
                    | some (_, pr) =>
                      if current_source.toLower = "radio" then some pr else none
                    | none => none
                  let muted : Bool := mv = RVal.s "on"
                  match vv with
                  | .n q =>
                    if cfg.receiver_max_volume * cfg.max_volume / 100 = 0 then
                      (log4, .error ())
                    else
                      let volume :=
                        coordinatorMainVolume q cfg.max_volume cfg.receiver_max_volume
                      match hdmi_out_raw with
                      | none =>
                        (log4, .ok
                          { pwstate := some "on", sound_mode := sound_mode,
                            current_source := some current_source,
                            muted := some muted, volume := some volume,
                            hdmi_out_supported := none, attributes := none })
                      | some (_, hv) =>
                        match joinComma hv with
                        | none => (log4, .error ())
                        | some joined =>
                          (log4, .ok
                            { pwstate := some "on", sound_mode := sound_mode,
                              current_source := some current_source,
                              muted := some muted, volume := some volume,
                              hdmi_out_supported :=
                                if hv = RVal.s "N/A" then some false else none,
                              attributes := some
                                { preset := presetAttr,
                                  audio_information := audioAttr,
                                  video_information := videoAttr,
                                  hdmi_output := some joined } })
                  | _ => (log4, .error ())
              | .numv _ => (log4, .error ())
              | .notSupported => (log4, .error ())
            | _, _, _ =>
              (log4, .ok
                { Snapshot.empty with pwstate := some "on", sound_mode := sound_mode })
    else
      (log0, .ok
        { Snapshot.empty with pwstate := some "off", attributes := some Attrs.empty })

/-- coordinator.async_fetch_data_zone: the reduced query set for a secondary
zone; note the early return of a fully empty dictionary when volume, mute or
selector is unavailable, and the multiplicative volume formula. -/
def fetchDataZone (cfg : CoordConfig) (zone : String) (o : ZoneOracle) :
    List String × Except Unit Snapshot :=
  let log0 := [zone ++ ".power=query"]
  match o.power with
  | none => (log0, .ok Snapshot.empty)
  | some (_, pv) =>
    if pv = RVal.s "on" then
      let log1 := log0 ++ [zone ++ ".volume=query", zone ++ ".muting=query",
        zone ++ ".selector=query", zone ++ ".preset=query"]
      match o.volume, o.muting, o.selector with
      | some (_, vv), some (_, mv), some (_, sv) =>
        let sourceList : Except Unit (List String) :=
          match sv with
          | .s s => .ok [s]
          | .t vs => .ok vs
          | .n _ => .error ()
        match sourceList with
        | .error _ => (log1, .error ())
        | .ok vs =>
          match resolveSource cfg.sources vs vs with
          | none => (log1, .error ())
          | some current_source =>
            let muted : Bool := mv = RVal.s "on"
            let presetAttr : Option RVal :=
              match o.preset with
              | some (_, pr) =>
                if current_source.toLower = "radio" then some pr else none
              | none => none
            match vv with
            | .n q =>
              if cfg.receiver_max_volume = 0 then (log1, .error ())
              else
                (log1, .ok
                  { pwstate := some "on", sound_mode := none,
                    current_source := some current_source,
                    muted := some muted,
                    volume := some
                      (coordinatorZoneVolume q cfg.max_volume cfg.receiver_max_volume),
                    hdmi_out_supported := none,
                    attributes := some
                      { Attrs.empty with preset := presetAttr } })
            | _ =>
              (log1, .ok
                { pwstate := some "on", sound_mode := none,
                  current_source := some current_source,
                  muted := some muted, volume := none,
                  hdmi_out_supported := none,
                  attributes := some
                    { Attrs.empty with preset := presetAttr } })
      | _, _, _ => (log1, .ok Snapshot.empty)
    else
      (log0, .ok
        { Snapshot.empty with pwstate := some "off", attributes := some Attrs.empty })

/-- A coordinator configuration with every optional feature enabled and a
source table containing the single code "net". -/
def pollTestConfig : CoordConfig :=
  ⟨true, true, true, (fun s => if s = "net" then some "Network" else none), 80, 100⟩

/-- A family of fully successful reply oracles for the main poll cycle. -/
def pollTestOracle (q : ℚ) (mv smv hv : String) (pr : RVal)
    (a b : String) (au vi : List String) : Oracle :=
  ⟨some ("PWR", .s "on"), some ("MVL", .n q), some ("AMT", .s mv),
   some ("SLI", .t ["net"]), some ("PRS", pr), some ("LMD", .t [smv]),
   some ("HDO", .t [hv]), some ("IFA", .t (a :: au)), some ("IFV", .t (b :: vi))⟩

/-- C10: _tuple_get is total on every list, nonnegative index and default: it
returns the element at the index when in range and the default otherwise,
never failing; hence the audio/video parsers tolerate short payload tuples,
e.g. a 1-element audio payload yields an all-default info record. -/
theorem tuple_get_total {α : Type} (tup : List α) (index : Nat) (default : α) :
    (∀ h : index < tup.length, tuple_get tup index default = tup.get ⟨index, h⟩) ∧
    (tup.length ≤ index → tuple_get tup index default = default) := by
  induction tup generalizing index with
  | nil =>
    refine ⟨fun h => absurd h (by simp), fun _ => ?_⟩
    simp [tuple_get]
  | cons x xs ih =>
    cases index with
    | zero =>
      refine ⟨fun h => rfl, fun h => ?_⟩
      simp at h
    | succ i =>
      refine ⟨fun h => ?_, fun h => ?_⟩
      · have := (ih i).1 (Nat.lt_of_succ_lt_succ h)
        simpa [tuple_get, List.drop] using this
      · have := (ih i).2 (Nat.le_of_succ_le_succ h)
        simpa [tuple_get, List.drop] using this

/-- C10 witness: _tuple_get at an in-range and an out-of-range index of a
concrete list, plus the audio parser on a 1-element payload tuple. -/
theorem tuple_get_total_witness :
    tuple_get ["a", "b"] 1 "d" = "b" ∧ tuple_get ["a", "b"] 5 "d" = "d" ∧
    parse_audio_information (some ("IFA", RVal.t ["x"])) =
      .ok (some ⟨none, none, none, none, none, none⟩) := by
  refine ⟨(tuple_get_total ["a", "b"] 1 "d").1 (by decide),
    (tuple_get_total ["a", "b"] 5 "d").2 (by decide), rfl⟩

lemma resolveSource_find (f : String → Option String) (all : List String) :
    ∀ l : List String,
      (∀ s, l.find? (fun t => (f t).isSome) = some s → resolveSource f all l = f s) ∧
      (l.find? (fun t => (f t).isSome) = none →
        l = [] ∨ resolveSource f all l = some (String.intercalate "_" all)) := by
  intro l
  induction l with
  | nil => exact ⟨fun s h => by simp at h, fun _ => Or.inl rfl⟩
  | cons x xs ih =>
    constructor
    · intro s hs
      by_cases hx : (f x).isSome
      · simp only [List.find?_cons, hx] at hs
        injection hs with hxs
        subst hxs
        obtain ⟨lbl, hlbl⟩ := Option.isSome_iff_exists.mp hx
        simp [resolveSource, hlbl]
      · have hx' : ((f x).isSome : Bool) = false := by
          simpa using hx
        simp only [List.find?_cons, hx'] at hs
        have h1 := ih.1 s hs
        have hnone : f x = none := Option.not_isSome_iff_eq_none.mp hx
        have h2 : ((f s).isSome : Bool) := by
          have := List.find?_some hs
          simpa using this
        obtain ⟨lbl, hlbl⟩ := Option.isSome_iff_exists.mp h2
        simp [resolveSource, hnone, h1, hlbl]
    · intro hs
      by_cases hx : (f x).isSome
      · simp only [List.find?_cons, hx] at hs
        exact absurd hs (by simp)
      · have hx' : ((f x).isSome : Bool) = false := by
          simpa using hx
        simp only [List.find?_cons, hx'] at hs
        have hnone : f x = none := Option.not_isSome_iff_eq_none.mp hx
        right
        rcases ih.2 hs with h | h
        · subst h
          simp [resolveSource, hnone]
        · simp [resolveSource, hnone, h]

/-- C8: for every nonempty list of source codes, the resolution loop raises no
exception and yields the table label of the first code found in the table, or
the raw codes joined by an underscore when no code is in the table; both poll
cycles resolve sources through this loop. -/
theorem resolve_source_spec (f : String → Option String) (srcs : List String)
    (h : srcs ≠ []) :
    (resolveSource f srcs srcs).isSome = true ∧
    (∀ s, srcs.find? (fun t => (f t).isSome) = some s →
      resolveSource f srcs srcs = f s) ∧
    (srcs.find? (fun t => (f t).isSome) = none →
      resolveSource f srcs srcs = some (String.intercalate "_" srcs)) := by
  have haux := resolveSource_find f srcs srcs
  refine ⟨?_, haux.1, fun hn => (haux.2 hn).resolve_left h⟩
  cases hfind : srcs.find? (fun t => (f t).isSome) with
  | some s =>
    rw [haux.1 s hfind]
    have := List.find?_some hfind
    simpa using this
  | none =>
    rcases haux.2 hfind with h' | h'
    · exact absurd h' h
    · rw [h']
      rfl

/-- C8 witness: resolution over ["xx", "fm"] with a table containing only
"fm" yields the label of "fm", the first (and only) matching code. -/
theorem resolve_source_spec_witness :
    resolveSource (fun s => if s = "fm" then some "Radio" else none)
      ["xx", "fm"] ["xx", "fm"] = some "Radio" :=
  ((resolve_source_spec (fun s => if s = "fm" then some "Radio" else none)
    ["xx", "fm"] (by decide)).2.1 "fm" (by decide)).trans rfl

/-- C9 counterexample: when the power query returns the falsy "not available"
sentinel, the poll returns an empty snapshot that does not record the power
state as off, although the reply was not "on". -/
theorem power_unavailable_cex :
    fetchData pollTestConfig
      { pollTestOracle 20 "on" "stereo" "no" (RVal.n 3) "a" "b" [] []
        with power := none } =
      (["system-power query"], .ok Snapshot.empty) ∧
    Snapshot.empty.pwstate ≠ some "off" := by
  exact ⟨rfl, by decide⟩

/-- C9 (amended): whenever the power query returns a truthy reply whose value
is anything other than "on", the poll records the power state as off with
empty attributes and issues none of the other queries, for the main zone and
secondary zones alike; whereas a falsy power reply makes the poll return an
empty snapshot that records no power state, again issuing no further
queries. -/
theorem power_short_circuit (cfg : CoordConfig) (o o2 : Oracle) (oz oz2 : ZoneOracle)
    (zone zone2 c c' : String) (v v' : RVal)
    (h : o.power = some (c, v)) (hv : v ≠ RVal.s "on")
    (h' : oz.power = some (c', v')) (hv' : v' ≠ RVal.s "on")
    (h2 : o2.power = none) (hz2 : oz2.power = none) :
    fetchData cfg o = (["system-power query"],
      .ok { Snapshot.empty with
            pwstate := some "off"
            attributes := some Attrs.empty }) ∧
    fetchDataZone cfg zone oz = ([zone ++ ".power=query"],
      .ok { Snapshot.empty with
            pwstate := some "off"
            attributes := some Attrs.empty }) ∧
    fetchData cfg o2 = (["system-power query"], .ok Snapshot.empty) ∧
    fetchDataZone cfg zone2 oz2 = ([zone2 ++ ".power=query"], .ok Snapshot.empty) := by
  refine ⟨?_, ?_, ?_, ?_⟩
  · simp [fetchData, h, hv]
  · simp [fetchDataZone, h', hv']
  · simp [fetchData, h2]
  · simp [fetchDataZone, hz2]

/-- C9 witness: the short circuit at a concrete "standby" power reply and a
concrete falsy power reply. -/
theorem power_short_circuit_witness :
    fetchData pollTestConfig
      { pollTestOracle 20 "on" "stereo" "no" (RVal.n 3) "a" "b" [] []
        with power := some ("PWR", RVal.s "standby") } =
      (["system-power query"],
        .ok { Snapshot.empty with
              pwstate := some "off"
              attributes := some Attrs.empty }) :=
  (power_short_circuit pollTestConfig
    { pollTestOracle 20 "on" "stereo" "no" (RVal.n 3) "a" "b" [] []
      with power := some ("PWR", RVal.s "standby") }
    { pollTestOracle 20 "on" "stereo" "no" (RVal.n 3) "a" "b" [] []
      with power := none }
    ⟨some ("ZPW", RVal.s "standby"), none, none, none, none⟩
    ⟨none, none, none, none, none⟩
    "zone2" "zone3" "PWR" "ZPW" (RVal.s "standby") (RVal.s "standby")
    rfl (by decide) rfl (by decide) rfl rfl).1

/-- C4 counterexample: a poll cycle in which only the volume query is
unavailable while every other query succeeds omits the muted and
current_source fields from the snapshot, although the mute and source queries
succeeded. -/
theorem poll_volume_unavailable_cex :
    (fetchData pollTestConfig
      { pollTestOracle 20 "on" "stereo" "no" (RVal.n 3) "a" "b" [] []
        with volume := none }).2 =
      .ok ⟨some "on", some "stereo", none, none, none, none, none⟩ ∧
    ({ pollTestOracle 20 "on" "stereo" "no" (RVal.n 3) "a" "b" [] []
        with volume := none } : Oracle).muting.isSome = true := by
  exact ⟨rfl, rfl⟩

/-- The audio_information record produced by a successful audio query whose
payload tuple is a :: au. -/
def testAudioInfo (a : String) (au : List String) : AudioInformation :=
  { format := tuple_get ((a :: au).map Option.some) 1 none
    input_frequency := tuple_get ((a :: au).map Option.some) 2 none
    input_channels := tuple_get ((a :: au).map Option.some) 3 none
    listening_mode := tuple_get ((a :: au).map Option.some) 4 none
    output_channels := tuple_get ((a :: au).map Option.some) 5 none
    output_frequency := tuple_get ((a :: au).map Option.some) 6 none }

/-- The video_information record produced by a successful video query whose
payload tuple is b :: vi. -/
def testVideoInfo (b : String) (vi : List String) : VideoInformation :=
  { input_resolution := tuple_get ((b :: vi).map Option.some) 1 none
    input_color_schema := tuple_get ((b :: vi).map Option.some) 2 none
    input_color_depth := tuple_get ((b :: vi).map Option.some) 3 none
    output_resolution := tuple_get ((b :: vi).map Option.some) 5 none
    output_color_schema := tuple_get ((b :: vi).map Option.some) 6 none
    output_color_depth := tuple_get ((b :: vi).map Option.some) 7 none
    picture_mode := tuple_get ((b :: vi).map Option.some) 8 none }

/-- The snapshot produced by a fully successful poll over pollTestOracle,
with preset attribute pa. -/
def pollTestSnap (q : ℚ) (mv smv hv : String) (pa : Option RVal) (a b : String)
    (au vi : List String) : Snapshot :=
  { pwstate := some "on"
    sound_mode := some smv
    current_source := some "Network"
    muted := some (decide (RVal.s mv = RVal.s "on"))
    volume := some (coordinatorMainVolume q 100 80)
    hdmi_out_supported := none
    attributes := some
      { preset := pa
        audio_information := some (testAudioInfo a au)
        video_information := some (testVideoInfo b vi)
        hdmi_output := some (String.intercalate "," [hv]) } }

lemma rval_t_ne_s (xs : List String) (y : String) : RVal.t xs ≠ RVal.s y :=
  fun h => RVal.noConfusion h

/-- The preset attribute computed when the resolved source label is
"Network" and the preset reply value is pr. -/
def presetIfRadio (pr : RVal) : Option RVal :=
  if "Network".toLower = "radio" then some pr else none

/-- C4 (amended): in a poll cycle where exactly one query is unavailable, the
snapshot keeps every other field only when the unavailable query is the
preset, sound-mode, audio-information or video-information one; an
unavailable volume, mute or source query leaves only the power state and
sound mode in the snapshot, and an unavailable HDMI-output query omits the
attributes key (so the audio, video and preset attributes) while keeping the
other fields. -/
theorem poll_single_unavailable_fields (q : ℚ) (mv smv hv : String) (pr : RVal)
    (a b : String) (au vi : List String) :
    ((fetchData pollTestConfig
        { pollTestOracle q mv smv hv pr a b au vi with preset := none }).2 =
      .ok (pollTestSnap q mv smv hv none a b au vi)) ∧
    ((fetchData pollTestConfig
        { pollTestOracle q mv smv hv pr a b au vi with listening := none }).2 =
      .ok { pollTestSnap q mv smv hv (presetIfRadio pr) a b au vi with
            sound_mode := none }) ∧
    ((fetchData pollTestConfig
        { pollTestOracle q mv smv hv pr a b au vi with audioInfo := none }).2 =
      .ok { pollTestSnap q mv smv hv (presetIfRadio pr) a b au vi with
            attributes := some
              { preset := presetIfRadio pr
                audio_information := none
                video_information := some (testVideoInfo b vi)
                hdmi_output := some (String.intercalate "," [hv]) } }) ∧
    ((fetchData pollTestConfig
        { pollTestOracle q mv smv hv pr a b au vi with videoInfo := none }).2 =
      .ok { pollTestSnap q mv smv hv (presetIfRadio pr) a b au vi with
            attributes := some
              { preset := presetIfRadio pr
                audio_information := some (testAudioInfo a au)
                video_information := none
                hdmi_output := some (String.intercalate "," [hv]) } }) ∧
    ((fetchData pollTestConfig
        { pollTestOracle q mv smv hv pr a b au vi with volume := none }).2 =
      .ok ⟨some "on", some smv, none, none, none, none, none⟩) ∧
    ((fetchData pollTestConfig
        { pollTestOracle q mv smv hv pr a b au vi with muting := none }).2 =
      .ok ⟨some "on", some smv, none, none, none, none, none⟩) ∧
    ((fetchData pollTestConfig
        { pollTestOracle q mv smv hv pr a b au vi with selector := none }).2 =
      .ok ⟨some "on", some smv, none, none, none, none, none⟩) ∧
    ((fetchData pollTestConfig
        { pollTestOracle q mv smv hv pr a b au vi with hdmi := none }).2 =
      .ok ⟨some "on", some smv, some "Network",
        some (decide (RVal.s mv = RVal.s "on")),
        some (coordinatorMainVolume q 100 80), none, none⟩) := by
  refine ⟨?_, ?_, ?_, ?_, ?_, ?_, ?_, ?_⟩ <;>
    norm_num [fetchData, pollTestConfig, pollTestOracle, pollTestSnap,
      testAudioInfo, testVideoInfo, soundModeStep, parse_onkyo_payload,
      parse_audio_information, parse_video_information, resolveSource,
      joinComma, Snapshot.empty, Attrs.empty, rval_t_ne_s, presetIfRadio]

/-! ## Connection manager (connection.py) -/

/-- The expected network error classes caught by the first except clause of
async_send_command. -/
inductive NetErr where
  | timeoutErr
  | refused
  | osErr
deriving Repr, DecidableEq

/-- An error raised by the underlying receiver.command call: one of the
expected network errors, or any other exception. -/
inductive SendErr where
  | net (e : NetErr)
  | other
deriving Repr, DecidableEq

/-- The attribute state of an OnkyoConnectionManager: _is_connected is always
present; _is_connecting is an attribute that __init__ never creates, so it is
an Option whose none means the attribute is absent and reading it raises
AttributeError. -/
structure ConnState where
  connected : Bool
  connecting : Option Bool
deriving Repr, DecidableEq

/-- The state after OnkyoConnectionManager.__init__: _is_connected = False
and no _is_connecting attribute. -/
def initConnState : ConnState := ⟨false, none⟩

def RECONNECT_DELAY_BASE : Nat := 1

def RECONNECT_DELAY_MAX : Nat := 60

/-- The delay slept before reconnect attempt number attempt:
min(RECONNECT_DELAY_BASE * (2 ** (attempt - 1)), RECONNECT_DELAY_MAX). -/
def reconnectDelay (attempt : Nat) : Nat :=
  min (RECONNECT_DELAY_BASE * 2 ^ (attempt - 1)) RECONNECT_DELAY_MAX

/-- The for-loop of _async_reconnect over the remaining attempt numbers:
sleeps the delay, then tests the connection, breaking on success; returns the
final state and the list of delays slept. -/
def reconnectAux (tests : Nat → Bool) : List Nat → ConnState → ConnState × List Nat
  | [], st => (st, [])
  | a :: rest, st =>
    let d := reconnectDelay a
    if tests a then ({ st with connected := true }, [d])
    else
      let r := reconnectAux tests rest st
      (r.1, d :: r.2)

/-- connection._async_reconnect: returns early when _is_connecting is True;
reading an absent _is_connecting raises (error); otherwise sets
_is_connecting = True and _is_connected = False, runs up to 5 attempts, and
finally resets _is_connecting = False. -/
def asyncReconnect (tests : Nat → Bool) (st : ConnState) :
    Except Unit (ConnState × List Nat) :=
  match st.connecting with
  | none => .error ()
  | some true => .ok (st, [])
  | some false =>
    let st1 : ConnState := { st with connecting := some true, connected := false }
    let r := reconnectAux tests [1, 2, 3, 4, 5] st1
    .ok ({ r.1 with connecting := some false }, r.2)

/-- The environment of one async_send_command call: the outcome the receiver
would produce if the command reached it, and the outcomes of the connection
tests a reconnect would run. -/
structure SendOracle where
  result : Except SendErr RVal
  tests : Nat → Bool

/-- connection.async_send_command: the guard
(not _is_connected and not _is_connecting) short-circuits, so when
_is_connected is False and _is_connecting is absent the read raises
AttributeError, which the blanket except turns into a None result with
_is_connected = False. The returned Bool records whether receiver.command was
invoked. -/
def sendCommand (o : SendOracle) (st : ConnState) : Option RVal × ConnState × Bool :=
  if st.connected then
    match o.result with
    | .ok r => (some r, st, true)
    | .error _ => (none, { st with connected := false }, true)
  else
    match st.connecting with
    | none => (none, { st with connected := false }, false)
    | some c =>
      if c then
        (none, st, false)
      else
        match asyncReconnect o.tests st with
        | .error _ => (none, { st with connected := false }, false)
        | .ok (st1, _) =>
          if st1.connected then
            match o.result with
            | .ok r => (some r, st1, true)
            | .error _ => (none, { st1 with connected := false }, true)
          else (none, st1, false)

/-- n consecutive async_send_command calls from a state, threading the
state. -/
def sendIter (os : Nat → SendOracle) : Nat → ConnState → ConnState
  | 0, st => st
  | n + 1, st => sendIter os n (sendCommand (os n) st).2.1

/-- C3: from the state left by __init__, every async_send_command call
returns None without invoking receiver.command (the guard raises
AttributeError, absorbed by the blanket except), the state is unchanged, so
connected remains False after any number of calls and the reconnect path is
never reached. -/
theorem send_command_attribute_bug :
    (∀ o : SendOracle, sendCommand o initConnState = (none, initConnState, false)) ∧
    (∀ (os : Nat → SendOracle) (n : Nat), sendIter os n initConnState = initConnState) := by
  have h1 : ∀ o : SendOracle,
      sendCommand o initConnState = (none, initConnState, false) := fun o => rfl
  refine ⟨h1, fun os n => ?_⟩
  induction n with
  | zero => rfl
  | succ m ih =>
    rw [sendIter, h1 (os m)]
    exact ih

/-- C6: async_send_command propagates no expected network error: whenever the
receiver call would fail with a timeout, connection-refused or OS error, the
result is None and the session is marked disconnected; and a send executed
while connected that succeeds returns the parsed reply. -/
theorem send_command_error_contract (st : ConnState) (o : SendOracle) :
    (∀ e : NetErr, o.result = .error (.net e) →
      (sendCommand o st).1 = none ∧ (sendCommand o st).2.1.connected = false) ∧
    (∀ r : RVal, o.result = .ok r → st.connected = true →
      sendCommand o st = (some r, st, true)) := by
  constructor
  · intro e he
    by_cases hc : st.connected
    · simp [sendCommand, hc, he]
    · cases hcon : st.connecting with
      | none => simp [sendCommand, hc, hcon]
      | some c =>
        cases c with
        | true => simp [sendCommand, hc, hcon]
        | false =>
          simp only [sendCommand, hc, hcon, if_false, Bool.false_eq_true,
            asyncReconnect]
          by_cases hb :
            (reconnectAux o.tests [1, 2, 3, 4, 5]
              { st with connecting := some true, connected := false }).1.connected
          · simp [hb, he, hc]
          · simp [hb, hc]
  · intro r hr hcon
    simp [sendCommand, hcon, hr]

/-- C6 witness: a timeout on a connected session yields None and marks it
disconnected, and a successful reply on a connected session is returned. -/
theorem send_command_error_contract_witness :
    ((sendCommand ⟨.error (.net .timeoutErr), fun _ => false⟩ ⟨true, some false⟩).1 =
        none ∧
      (sendCommand ⟨.error (.net .timeoutErr), fun _ => false⟩
        ⟨true, some false⟩).2.1.connected = false) ∧
    sendCommand ⟨.ok (RVal.s "on"), fun _ => false⟩ ⟨true, some false⟩ =
      (some (RVal.s "on"), ⟨true, some false⟩, true) :=
  ⟨(send_command_error_contract ⟨true, some false⟩
      ⟨.error (.net .timeoutErr), fun _ => false⟩).1 .timeoutErr rfl,
    (send_command_error_contract ⟨true, some false⟩
      ⟨.ok (RVal.s "on"), fun _ => false⟩).2 (RVal.s "on") rfl rfl⟩

/-- C5 counterexample: the delay slept before the first reconnect attempt is
min(base * 2^(1-1), max) = 1 second, not min(base * 2^1, max) = 2 seconds as
the claim states. -/
theorem reconnect_delay_formula_cex :
    reconnectDelay 1 = 1 ∧
    min (RECONNECT_DELAY_BASE * 2 ^ 1) RECONNECT_DELAY_MAX = 2 ∧
    reconnectDelay 1 ≠ min (RECONNECT_DELAY_BASE * 2 ^ 1) RECONNECT_DELAY_MAX := by
  refine ⟨by decide, by decide, by decide⟩

/-- C5 (amended): when invoked with _is_connecting = False, the reconnect
routine performs at most 5 attempts, waiting
min(base * 2^(a-1), max_delay) before attempt a, i.e. the delays slept are a
prefix of 1, 2, 4, 8, 16; when every test fails it stops after the 5th
attempt with the session still disconnected and _is_connecting reset, so a
send then reports failure without blocking indefinitely. -/
theorem reconnect_backoff_schedule (tests : Nat → Bool) (st : ConnState)
    (h : st.connecting = some false) :
    ∃ st2 ds, asyncReconnect tests st = .ok (st2, ds) ∧
      ds.length ≤ 5 ∧
      ds = (List.range ds.length).map (fun i => reconnectDelay (i + 1)) ∧
      ((∀ a, tests a = false) →
        ds = [1, 2, 4, 8, 16] ∧ st2.connected = false ∧
          st2.connecting = some false) := by
  simp only [asyncReconnect, h]
  by_cases t1 : tests 1
  · refine ⟨⟨true, some false⟩, [1], ?_, by decide, by decide, fun hall => ?_⟩
    · simp [reconnectAux, t1, reconnectDelay, RECONNECT_DELAY_BASE,
        RECONNECT_DELAY_MAX]
    · exact absurd t1 (by simp [hall 1])
  · by_cases t2 : tests 2
    · refine ⟨⟨true, some false⟩, [1, 2], ?_, by decide, by decide, fun hall => ?_⟩
      · simp [reconnectAux, t1, t2, reconnectDelay, RECONNECT_DELAY_BASE,
          RECONNECT_DELAY_MAX]
      · exact absurd t2 (by simp [hall 2])
    · by_cases t3 : tests 3
      · refine ⟨⟨true, some false⟩, [1, 2, 4], ?_, by decide, by decide,
          fun hall => ?_⟩
        · simp [reconnectAux, t1, t2, t3, reconnectDelay, RECONNECT_DELAY_BASE,
            RECONNECT_DELAY_MAX]
        · exact absurd t3 (by simp [hall 3])
      · by_cases t4 : tests 4
        · refine ⟨⟨true, some false⟩, [1, 2, 4, 8], ?_, by decide, by decide,
            fun hall => ?_⟩
          · simp [reconnectAux, t1, t2, t3, t4, reconnectDelay,
              RECONNECT_DELAY_BASE, RECONNECT_DELAY_MAX]
          · exact absurd t4 (by simp [hall 4])
        · by_cases t5 : tests 5
          · refine ⟨⟨true, some false⟩, [1, 2, 4, 8, 16], ?_, by decide,
              by decide, fun hall => ?_⟩
            · simp [reconnectAux, t1, t2, t3, t4, t5, reconnectDelay,
                RECONNECT_DELAY_BASE, RECONNECT_DELAY_MAX]
            · exact absurd t5 (by simp [hall 5])
          · refine ⟨⟨false, some false⟩, [1, 2, 4, 8, 16], ?_, by decide,
              by decide, fun _ => ⟨rfl, rfl, rfl⟩⟩
            simp [reconnectAux, t1, t2, t3, t4, t5, reconnectDelay,
              RECONNECT_DELAY_BASE, RECONNECT_DELAY_MAX]

/-- C5 witness: the backoff schedule when every connection test fails. -/
theorem reconnect_backoff_schedule_witness :
    ∃ st2 ds, asyncReconnect (fun _ => false) ⟨false, some false⟩ = .ok (st2, ds) ∧
      ds.length ≤ 5 ∧
      ds = (List.range ds.length).map (fun i => reconnectDelay (i + 1)) ∧
      ((∀ a, (fun _ => false : Nat → Bool) a = false) →
        ds = [1, 2, 4, 8, 16] ∧ st2.connected = false ∧
          st2.connecting = some false) :=
  reconnect_backoff_schedule (fun _ => false) ⟨false, some false⟩ rfl

/-! ## Rate limiting (connection._rate_limit) -/

def COMMAND_DELAY : ℚ := 15 / 100

/-- The only timing state read by _rate_limit: _last_command_time. -/
structure TimedState where
  lastCommandTime : ℚ
deriving Repr, DecidableEq

/-- Outcome of one send as seen on the wire: success or failure, each taking
some duration from wire write to completion of the executor job. -/
inductive SendOutcome where
  | success (duration : ℚ)
  | failure (duration : ℚ)
deriving Repr, DecidableEq

/-- One pass through the rate limiter and the send: _rate_limit sleeps
COMMAND_DELAY - elapsed when elapsed < COMMAND_DELAY, so the wire time is the
invocation time or _last_command_time + COMMAND_DELAY, whichever is later;
a successful send then records loop.time() (its completion time) in
_last_command_time, while a failed send leaves it unchanged. Returns the wire
time and the new state. -/
def timedSend (st : TimedState) (invokeTime : ℚ) (out : SendOutcome) :
    ℚ × TimedState :=
  let wire := if invokeTime - st.lastCommandTime < COMMAND_DELAY
    then st.lastCommandTime + COMMAND_DELAY else invokeTime
  match out with
  | .success d => (wire, ⟨wire + d⟩)
  | .failure _ => (wire, st)

/-- C7 counterexample: a send that fails quickly does not update
_last_command_time, so the next send reaches the wire only 0.01 seconds
later, less than COMMAND_DELAY = 0.15 seconds after the failed send's wire
time. -/
theorem rate_limit_after_failure_cex :
    (timedSend ⟨0⟩ 100 (.failure (1 / 100))).1 = 100 ∧
    (timedSend ⟨0⟩ 100 (.failure (1 / 100))).2 = ⟨0⟩ ∧
    (timedSend (timedSend ⟨0⟩ 100 (.failure (1 / 100))).2 (10001 / 100)
        (.success 1)).1 -
      (timedSend ⟨0⟩ 100 (.failure (1 / 100))).1 < COMMAND_DELAY := by
  refine ⟨?_, ?_, ?_⟩ <;> norm_num [timedSend, COMMAND_DELAY]

/-- C7 (amended): two consecutive sends where the earlier one succeeds are
separated on the wire by at least COMMAND_DELAY (the rate limiter measures
from the recorded completion of the last successful send); a failed send
leaves the recorded time unchanged, so the separation guarantee holds only
relative to the last successful send, not after a failed one. -/
theorem rate_limit_after_success (st : TimedState) (inv1 d1 inv2 : ℚ)
    (o2 : SendOutcome) (hd : 0 ≤ d1) :
    (timedSend (timedSend st inv1 (.success d1)).2 inv2 o2).1 ≥
      (timedSend st inv1 (.success d1)).1 + COMMAND_DELAY := by
  have hfst : ∀ (s : TimedState) (t : ℚ) (o : SendOutcome),
      (timedSend s t o).1 =
        if t - s.lastCommandTime < COMMAND_DELAY
        then s.lastCommandTime + COMMAND_DELAY else t := by
    intro s t o
    cases o <;> rfl
  have hsnd : (timedSend st inv1 (.success d1)).2.lastCommandTime =
      (timedSend st inv1 (.success d1)).1 + d1 := by
    rfl
  rw [hfst, hsnd]
  set w1 := (timedSend st inv1 (.success d1)).1 with hw1
  by_cases h : inv2 - (w1 + d1) < COMMAND_DELAY
  · rw [if_pos h]
    linarith
  · rw [if_neg h]
    have := not_lt.mp h
    linarith

/-- C7 witness: the wire-separation bound after a successful send of duration
1 starting from time 0. -/
theorem rate_limit_after_success_witness :
    (timedSend (timedSend ⟨0⟩ 0 (.success 1)).2 0 (.success 0)).1 ≥
      (timedSend ⟨0⟩ 0 (.success 1)).1 + COMMAND_DELAY :=
  rate_limit_after_success ⟨0⟩ 0 1 0 (.success 0) (by norm_num)

end Onkyo
